import Mathlib

/-!
# Verification of the port-scan-x scanning core

A shallow embedding of the repository's three Python modules
(`scanner.py`, `utils.py`, `main_gui.py`) and proofs about them.

The network and the asyncio runtime are modelled as explicit
environments: a `Net` function says, for each `(ip, port, timeout)`
triple, how the single TCP connect attempt of `scan_port` resolves,
and a per-task flag says whether the user-supplied progress callback
raises when invoked (the only user code that runs inside a scheduled
task, hence the only fault source that `asyncio.gather(...,
return_exceptions=True)` can capture once `scan_port` is shown total).
-/

set_option linter.unusedVariables false
set_option maxRecDepth 8000

namespace PortScanX

/-- The exception classes distinguished by `scan_port`'s `except` clauses:
`asyncio.TimeoutError`, `ConnectionRefusedError`, and the catch-all
`Exception` (carrying an arbitrary class name). -/
inductive PyException where
  | timeoutError
  | connectionRefused
  | other (name : String)
  deriving DecidableEq, Repr

/-- How one TCP connect attempt resolves: the connection is established
(with a measured whole-millisecond elapsed time, the `round(... * 1000)`
of `scanner.py` line 32), or some exception is raised. -/
inductive ConnectOutcome where
  | ok (elapsedMs : Int)
  | exn (e : PyException)
  deriving DecidableEq, Repr

/-- The network environment: resolves each connect attempt. -/
abbrev Net := String → Int → ℚ → ConnectOutcome

/-- Embedding of `scanner.scan_port` (scanner.py lines 7-40): one probe.  The
`try/except` ladder maps every possible resolution of the connect
attempt to a classified `(port, status, elapsed_ms)` tuple; the final
`except Exception` arm absorbs every remaining exception, so the
function is total — no exception crosses its boundary. -/
def scan_port (net : Net) (ip : String) (port : Int) (timeout : ℚ) :
    Int × String × Option Int :=
  match net ip port timeout with
  | .ok elapsedMs => (port, "open", some elapsedMs)
  | .exn .timeoutError => (port, "timeout", none)
  | .exn .connectionRefused => (port, "closed", none)
  | .exn (.other _) => (port, "error", none)

/-- What `asyncio.gather(..., return_exceptions=True)` hands back for one
task: the task's returned tuple, or the exception object the task raised
(which `scan_ports` detects with `isinstance(result, tuple)`). -/
inductive GatherItem where
  | tuple (r : Int × String × Option Int)
  | exc
  deriving DecidableEq, Repr

/-- Embedding of `scan_with_semaphore` (scanner.py lines 66-71), one task's body minus
the semaphore (the gate is modelled separately as a transition system
below): run `scan_port`, then invoke the progress callback once if one
was supplied.  `raises` says whether that callback invocation raises;
if it does, the invocation still happened, and the task's gathered item
is the captured exception.  Returns the gathered item together with the
number of callback invocations the task performed. -/
def scan_with_semaphore (net : Net) (ip : String) (timeout : ℚ)
    (hasCallback : Bool) (raises : Bool) (port : Int) : GatherItem × Nat :=
  let result := scan_port net ip port timeout
  if hasCallback then
    if raises then (.exc, 1) else (.tuple result, 1)
  else (.tuple result, 0)

/-- The list `asyncio.gather` assembles (scanner.py lines 74-77): one
item per requested port, in the order of the generator expression, i.e.
positionally aligned with `ports`; paired with each task's callback
invocation count. -/
def gatherItems (net : Net) (ip : String) (timeout : ℚ) (hasCallback : Bool)
    (raises : Nat → Bool) (ports : List Int) : List (GatherItem × Nat) :=
  ports.enum.map (fun x => scan_with_semaphore net ip timeout hasCallback (raises x.1) x.2)

/-- The result-filtering loop of `scan_ports` (scanner.py lines 79-88):
every gathered item that is a tuple is kept, every other item is
replaced by the synthetic sentinel `(0, "error", None)`. -/
def substitute_faults (results : List GatherItem) : List (Int × String × Option Int) :=
  results.map (fun r =>
    match r with
    | .tuple t => t
    | .exc => (0, "error", none))

/-- Embedding of `scanner.scan_ports` (scanner.py lines 43-88): fan out one task per
port, gather with exceptions captured, substitute the sentinel for
faulted tasks.  `concurrency` bounds simultaneous probes (modelled by
the semaphore transition system below); it does not affect which
outcomes are produced. -/
def scan_ports (net : Net) (ip : String) (ports : List Int) (concurrency : Nat)
    (timeout : ℚ) (hasCallback : Bool) (raises : Nat → Bool) :
    List (Int × String × Option Int) :=
  substitute_faults ((gatherItems net ip timeout hasCallback raises ports).map Prod.fst)

/-- Total number of progress-callback invocations performed during one
`scan_ports` call. -/
def progressInvocations (net : Net) (ip : String) (ports : List Int)
    (timeout : ℚ) (hasCallback : Bool) (raises : Nat → Bool) : Nat :=
  ((gatherItems net ip timeout hasCallback raises ports).map Prod.snd).sum

/-- The whitespace set of Python's `str.strip()`. -/
def pyIsSpace (c : Char) : Bool :=
  c = ' ' || c = '\t' || c = '\n' || c = '\r' || c = '\x0b' || c = '\x0c'

/-- Python's `str.strip()` over the character sequence: drop whitespace
from both ends. -/
def pyStrip (s : List Char) : List Char :=
  ((s.dropWhile pyIsSpace).reverse.dropWhile pyIsSpace).reverse

/-- Python's `str.split(sep)` for a one-character separator: every
occurrence of `sep` ends a piece; `"".split(sep)` is `[""]`. -/
def pySplit (sep : Char) : List Char → List (List Char)
  | [] => [[]]
  | c :: cs =>
    let rest := pySplit sep cs
    if c = sep then [] :: rest
    else
      match rest with
      | r :: rs => (c :: r) :: rs
      | [] => [[c]]

/-- Python's built-in `int(str)` on the tokens this parser feeds it:
strip surrounding whitespace, an optional sign, then a non-empty run of
decimal digits; anything else raises `ValueError: invalid literal`
(here `none`). -/
def pyInt (s : List Char) : Option Int :=
  let t := pyStrip s
  let signDigits : Int × List Char :=
    match t with
    | '-' :: rest => (-1, rest)
    | '+' :: rest => (1, rest)
    | _ => (1, t)
  if !signDigits.2.isEmpty && signDigits.2.all Char.isDigit then
    some (signDigits.1 *
      Int.ofNat (signDigits.2.foldl (fun acc c => acc * 10 + (c.toNat - 48)) 0))
  else none

/-- Embedding of `ports.add(x)` and of iterating `ports.update(...)` on the Python `set`:
the set is modelled as a duplicate-free list (iteration order is
irrelevant — `parse_ports` sorts before returning). -/
def setInsert (a : Int) (s : List Int) : List Int :=
  if a ∈ s then s else a :: s

/-- Python's `range(lo, lo + n)` as a list. -/
def intRange (lo : Int) : Nat → List Int
  | 0 => []
  | n + 1 => lo :: intRange (lo + 1) n

/-- One comma-separated (already stripped) token of `parse_ports`
(utils.py lines 36-58): a token containing `-` is split on every `-`
and unpacked through the lazy `map(int, ...)` — an invalid literal
among the first pieces is re-raised with the range-format message,
while successful conversion of more than two pieces fails the
unpacking itself, whose `ValueError` is re-raised unchanged — and a
plain token is a single port; both branches range-check against
[1, 65535], any violation raising the branch's `ValueError`. -/
def parsePart (acc : List Int) (part : List Char) : Except String (List Int) :=
  if part.contains '-' then
    match pySplit '-' part with
    | [a, b] =>
      match pyInt a, pyInt b with
      | some start, some stop =>
        if start < 1 ∨ stop > 65535 ∨ start > stop then
          .error ("Некорректный диапазон портов: " ++ String.mk part)
        else
          .ok ((intRange start (stop + 1 - start).toNat).foldl (fun s p => setInsert p s) acc)
      | _, _ => .error ("Некорректный формат диапазона: " ++ String.mk part)
    | a :: b :: c :: _ =>
      match pyInt a, pyInt b, pyInt c with
      | some _, some _, some _ => .error "too many values to unpack (expected 2)"
      | _, _, _ => .error ("Некорректный формат диапазона: " ++ String.mk part)
    | _ => .error ("Некорректный формат диапазона: " ++ String.mk part)
  else
    match pyInt part with
    | some port =>
      if port < 1 ∨ port > 65535 then
        .error ("Некорректный номер порта: " ++ String.mk part)
      else .ok (setInsert port acc)
    | none => .error ("Некорректный номер порта: " ++ String.mk part)

/-- Embedding of `utils.parse_ports` (utils.py lines 9-60): reject a blank string,
split the stripped string on commas, strip each token, accumulate a
set of ports, and return the set sorted ascending
(`sorted(list(ports))`).  The `ValueError`s the Python raises appear
as `Except.error`. -/
def parse_ports (port_string : String) : Except String (List Int) := do
  if (pyStrip port_string.data).isEmpty then
    throw "Пустая строка портов"
  let parts := pySplit ',' (pyStrip port_string.data)
  let ports ← parts.foldlM (fun acc part => parsePart acc (pyStrip part)) ([] : List Int)
  return List.insertionSort (· ≤ ·) ports

/-- The static well-known-port table of `get_port_description`
(utils.py lines 146-170). -/
def well_known_ports : List (Int × String) :=
  [(21, "FTP"), (22, "SSH"), (23, "Telnet"), (25, "SMTP"), (53, "DNS"),
   (80, "HTTP"), (110, "POP3"), (111, "RPC"), (135, "RPC Endpoint"),
   (139, "NetBIOS"), (143, "IMAP"), (443, "HTTPS"), (993, "IMAPS"),
   (995, "POP3S"), (1723, "PPTP"), (3306, "MySQL"), (3389, "RDP"),
   (5432, "PostgreSQL"), (5900, "VNC"), (8080, "HTTP Proxy"),
   (8443, "HTTPS Alt"), (8888, "HTTP Alt"), (9090, "HTTP Alt")]

/-- Embedding of `utils.get_port_description` (utils.py lines 136-172):
`well_known_ports.get(port, f"Port {port}")`. -/
def get_port_description (port : Int) : String :=
  match well_known_ports.lookup port with
  | some d => d
  | none => "Port " ++ toString port

/-- One result dictionary `{"port": ..., "status": ..., "time_ms": ...,
"description": ...}`.  `status = none` models a dictionary without a
`"status"` key and `time_ms = none` one without a `"time_ms"` key, so
the `.get(...)` defaulting in `create_summary` and `save_results_txt`
is expressible; the entries the program itself builds
(`process_results`) always carry both keys, with `time_ms` possibly
holding Python's `None` (`some none` here). -/
structure ResultEntry where
  port : Int
  status : Option String
  time_ms : Option (Option Int)
  description : String
  deriving DecidableEq, Repr

/-- The summary dictionary `{"total", "open", "closed", "timeout",
"error"}` built by `create_summary`. -/
structure Summary where
  total : Int
  «open» : Int
  closed : Int
  timeout : Int
  error : Int
  deriving DecidableEq, Repr

/-- The loop body of `create_summary` (utils.py lines 280-283):
`status = result.get("status", "error"); if status in summary:
summary[status] += 1`.  The membership test ranges over all five keys
of the dictionary, `"total"` included; a status matching no key
increments nothing. -/
def bumpSummary (s : Summary) (status : String) : Summary :=
  if status = "total" then { s with total := s.total + 1 }
  else if status = "open" then { s with «open» := s.«open» + 1 }
  else if status = "closed" then { s with closed := s.closed + 1 }
  else if status = "timeout" then { s with timeout := s.timeout + 1 }
  else if status = "error" then { s with error := s.error + 1 }
  else s

/-- Embedding of `utils.create_summary` (utils.py lines 262-285). -/
def create_summary (results : List ResultEntry) : Summary :=
  results.foldl (fun s r => bumpSummary s (r.status.getD "error"))
    { total := (results.length : Int), «open» := 0, closed := 0, timeout := 0, error := 0 }

/-- The entry-building loop of `PortScannerApp.process_results`
(main_gui.py lines 382-389): one dictionary per outcome tuple, all four
keys present. -/
def mkResultEntry (t : Int × String × Option Int) : ResultEntry :=
  { port := t.1, status := some t.2.1, time_ms := some t.2.2,
    description := get_port_description t.1 }

/-- The key order of `self.scan_results.sort(key=lambda x: x["port"])`
(main_gui.py line 391). -/
def portLE (a b : ResultEntry) : Prop := a.port ≤ b.port

instance : DecidableRel portLE := fun a b => Int.decLe a.port b.port

instance : IsTotal ResultEntry portLE := ⟨fun a b => Int.le_total a.port b.port⟩

instance : IsTrans ResultEntry portLE := ⟨fun _ _ _ hab hbc => le_trans hab hbc⟩

/-- Embedding of `self.scan_results.sort(key=lambda x: x["port"])` (main_gui.py line
391): Python's stable ascending sort by the port key, modelled by a
stable structural sort (all stable sorts agree on their output). -/
def sortByPort (l : List ResultEntry) : List ResultEntry :=
  List.insertionSort portLE l

/-- Embedding of `PortScannerApp.process_results` (main_gui.py lines 378-391), data
part: build one dictionary per outcome tuple and sort ascending by
port.  (The remainder of the method renders table rows — presentation
only.) -/
def process_results (results : List (Int × String × Option Int)) : List ResultEntry :=
  sortByPort (results.map mkResultEntry)

/-- The spec's `aggregate` (§4.3) as the program performs it: the sort
of `process_results` followed by `create_summary` on the sorted entries
(`finish_scan`, main_gui.py line 423, applies it to
`self.scan_results`). -/
def aggregate (results : List ResultEntry) : List ResultEntry × Summary :=
  let sorted := sortByPort results
  (sorted, create_summary sorted)

/-- Rendering by `str()` of the value stored under `"time_ms"`: an int renders as
its decimal digits; Python's `None` renders as the four letters `None`
— which is what an f-string interpolates. -/
def pyStrOptInt (v : Option Int) : String :=
  match v with
  | some n => toString n
  | none => "None"

/-- Right-justify to a minimum field width, as Python's `{x:5d}`. -/
def padIntField (w : Nat) (s : String) : String :=
  if s.length < w then String.mk (List.replicate (w - s.length) ' ') ++ s else s

/-- Left-justify to a minimum field width, as Python's `{x:15s}`. -/
def padStrField (w : Nat) (s : String) : String :=
  if s.length < w then s ++ String.mk (List.replicate (w - s.length) ' ') else s

/-- One per-port line of `utils.save_results_txt` (utils.py lines
190-199).  `result['port']` and `result['status']` index directly (a
missing status key raises `KeyError`, hence the `Option` result);
`time_ms = result.get('time_ms', 'N/A')` defaults only when the key is
missing, and the trailing time field is written whenever the retrieved
value differs from the string `'N/A'` — in particular also when it is
Python's `None`. -/
def result_line (r : ResultEntry) : Option String :=
  match r.status with
  | none => none
  | some status =>
    let description := get_port_description r.port
    let base := "Port " ++ padIntField 5 (toString r.port) ++ " ("
      ++ padStrField 15 description ++ "): " ++ padStrField 8 status
    match r.time_ms with
    | none => some base
    | some v => some (base ++ " (" ++ pyStrOptInt v ++ "ms)")

/-- C1: for every host, port and timeout (and every behaviour of the
network), `scan_port` returns a classified tuple carrying the probed
port, with status one of open/closed/timeout/error, and with a
whole-millisecond elapsed value exactly when the status is open.
Totality of `scan_port` — it never propagates an exception — is
expressed by its type: every `ConnectOutcome`, including an arbitrary
unexpected exception, maps to a classified tuple. -/
theorem scan_port_classifies (net : Net) (ip : String) (port : Int) (timeout : ℚ) :
    (scan_port net ip port timeout).1 = port ∧
    ((scan_port net ip port timeout).2.1 = "open" ∨
     (scan_port net ip port timeout).2.1 = "closed" ∨
     (scan_port net ip port timeout).2.1 = "timeout" ∨
     (scan_port net ip port timeout).2.1 = "error") ∧
    ((scan_port net ip port timeout).2.2.isSome ↔
     (scan_port net ip port timeout).2.1 = "open") := by
  rcases h : net ip port timeout with e | pe
  · simp [scan_port, h]
  · rcases pe with _ | _ | name <;> simp [scan_port, h]

deriving instance DecidableEq for Except

/-- C7: `parse_ports "20-80,443,8080"` returns exactly the 63 ports
20..80, 443, 8080 sorted ascending; duplicate ports across tokens
collapse to one (shown on `"8080,443,8080"`); and `"0"`, `"65536"` and
the reversed range `"80-20"` each raise a `ValueError`. -/
theorem parse_ports_cases :
    parse_ports "20-80,443,8080" = .ok
      [20, 21, 22, 23, 24, 25, 26, 27, 28, 29, 30, 31, 32, 33, 34, 35, 36,
       37, 38, 39, 40, 41, 42, 43, 44, 45, 46, 47, 48, 49, 50, 51, 52, 53,
       54, 55, 56, 57, 58, 59, 60, 61, 62, 63, 64, 65, 66, 67, 68, 69, 70,
       71, 72, 73, 74, 75, 76, 77, 78, 79, 80, 443, 8080] ∧
    parse_ports "8080,443,8080" = .ok [443, 8080] ∧
    parse_ports "0" = .error "Некорректный номер порта: 0" ∧
    parse_ports "65536" = .error "Некорректный номер порта: 65536" ∧
    parse_ports "80-20" = .error "Некорректный диапазон портов: 80-20" := by
  refine ⟨?_, ?_, ?_, ?_, ?_⟩ <;> decide

/-- Number of entries whose looked-up status (`result.get("status",
"error")`) equals `st`. -/
def statusCount (results : List ResultEntry) (st : String) : Int :=
  (results.countP (fun r => r.status.getD "error" == st) : Int)

lemma statusCount_cons (r : ResultEntry) (rs : List ResultEntry) (st : String) :
    statusCount (r :: rs) st =
      statusCount rs st + (if r.status.getD "error" = st then 1 else 0) := by
  unfold statusCount
  rw [List.countP_cons]
  by_cases h : r.status.getD "error" = st <;> simp [h]

lemma bumpSummary_fields (s : Summary) (st : String) :
    (bumpSummary s st).total = s.total + (if st = "total" then 1 else 0) ∧
    (bumpSummary s st).«open» = s.«open» + (if st = "open" then 1 else 0) ∧
    (bumpSummary s st).closed = s.closed + (if st = "closed" then 1 else 0) ∧
    (bumpSummary s st).timeout = s.timeout + (if st = "timeout" then 1 else 0) ∧
    (bumpSummary s st).error = s.error + (if st = "error" then 1 else 0) := by
  unfold bumpSummary
  split_ifs with h1 h2 h3 h4 h5 <;> simp_all

lemma create_summary_foldl (results : List ResultEntry) (s : Summary) :
    results.foldl (fun a r => bumpSummary a (r.status.getD "error")) s =
      { total := s.total + statusCount results "total",
        «open» := s.«open» + statusCount results "open",
        closed := s.closed + statusCount results "closed",
        timeout := s.timeout + statusCount results "timeout",
        error := s.error + statusCount results "error" } := by
  induction results generalizing s with
  | nil => simp [statusCount]
  | cons r rs ih =>
    rw [List.foldl_cons, ih]
    obtain ⟨h1, h2, h3, h4, h5⟩ := bumpSummary_fields s (r.status.getD "error")
    simp only [statusCount_cons, Summary.mk.injEq]
    refine ⟨?_, ?_, ?_, ?_, ?_⟩ <;> omega

/-- The exact value of `create_summary` on any input: each of the four
status buckets counts its own status, `total` starts at the input
length and is additionally incremented by every entry whose status is
the literal string `"total"`, and entries with any other unrecognized
status are counted nowhere. -/
lemma create_summary_eq (results : List ResultEntry) :
    create_summary results =
      { total := (results.length : Int) + statusCount results "total",
        «open» := statusCount results "open",
        closed := statusCount results "closed",
        timeout := statusCount results "timeout",
        error := statusCount results "error" } := by
  unfold create_summary
  rw [create_summary_foldl]
  simp

lemma statusCount_total_eq_zero (results : List ResultEntry)
    (h : ∀ r ∈ results, r.status.getD "error" = "open" ∨ r.status.getD "error" = "closed" ∨
      r.status.getD "error" = "timeout" ∨ r.status.getD "error" = "error") :
    statusCount results "total" = 0 := by
  induction results with
  | nil => simp [statusCount]
  | cons r rs ih =>
    rw [statusCount_cons, ih (fun x hx => h x (List.mem_cons_of_mem r hx))]
    rcases h r (List.mem_cons_self r rs) with hr | hr | hr | hr <;> simp [hr]

lemma statusCount_partition (results : List ResultEntry)
    (h : ∀ r ∈ results, r.status.getD "error" = "open" ∨ r.status.getD "error" = "closed" ∨
      r.status.getD "error" = "timeout" ∨ r.status.getD "error" = "error") :
    statusCount results "open" + statusCount results "closed" +
      statusCount results "timeout" + statusCount results "error" =
      (results.length : Int) := by
  induction results with
  | nil => simp [statusCount]
  | cons r rs ih =>
    have ih := ih (fun x hx => h x (List.mem_cons_of_mem r hx))
    simp only [statusCount_cons, List.length_cons]
    rcases h r (List.mem_cons_self r rs) with hr | hr | hr | hr <;> simp [hr] <;> omega

/-- C4 counterexample: a single outcome with the unrecognized status
`"strange"` is counted toward no bucket at all — `error` stays 0 and
`total ≠ open + closed + timeout + error` — contradicting the claim
that statuses outside open/closed/timeout/error count toward `error`. -/
theorem create_summary_unrecognized_dropped :
    (create_summary
      [{ port := 1, status := some "strange", time_ms := some none, description := "" }]).error
      = 0 ∧
    (create_summary
      [{ port := 1, status := some "strange", time_ms := some none, description := "" }]).total ≠
    (create_summary
      [{ port := 1, status := some "strange", time_ms := some none, description := "" }]).«open» +
    (create_summary
      [{ port := 1, status := some "strange", time_ms := some none, description := "" }]).closed +
    (create_summary
      [{ port := 1, status := some "strange", time_ms := some none, description := "" }]).timeout +
    (create_summary
      [{ port := 1, status := some "strange", time_ms := some none, description := "" }]).error := by
  refine ⟨rfl, by decide⟩

/-- C4 (amended): `create_summary` counts each of the four recognized
statuses into its own bucket, a missing status key defaulting to
`error`; whenever every outcome's looked-up status is one of
open/closed/timeout/error — which holds for everything the scanner
produces — the counts satisfy
`total = open + closed + timeout + error = number of outcomes`.  An
outcome with any other status string is counted toward no bucket, so
the identity does not extend to arbitrary statuses. -/
theorem create_summary_counts (results : List ResultEntry)
    (h : ∀ r ∈ results, r.status.getD "error" = "open" ∨ r.status.getD "error" = "closed" ∨
      r.status.getD "error" = "timeout" ∨ r.status.getD "error" = "error") :
    create_summary results =
      { total := (results.length : Int),
        «open» := statusCount results "open",
        closed := statusCount results "closed",
        timeout := statusCount results "timeout",
        error := statusCount results "error" } ∧
    (create_summary results).«open» + (create_summary results).closed +
      (create_summary results).timeout + (create_summary results).error =
      (results.length : Int) := by
  have he := create_summary_eq results
  have hz := statusCount_total_eq_zero results h
  have hp := statusCount_partition results h
  constructor
  · rw [he, hz, add_zero]
  · rw [he]
    simpa using hp

/-- C4 witness: the amended theorem applied to a concrete two-entry
list (one open with a time, one closed with Python `None`, as the
scanner produces them). -/
theorem create_summary_counts_witness :
    create_summary
      [{ port := 22, status := some "open", time_ms := some (some 5), description := "SSH" },
       { port := 23, status := some "closed", time_ms := some none, description := "Telnet" }] =
      { total := (([{ port := 22, status := some "open", time_ms := some (some 5), description := "SSH" },
          { port := 23, status := some "closed", time_ms := some none, description := "Telnet" }] :
          List ResultEntry).length : Int),
        «open» := statusCount
          [{ port := 22, status := some "open", time_ms := some (some 5), description := "SSH" },
           { port := 23, status := some "closed", time_ms := some none, description := "Telnet" }] "open",
        closed := statusCount
          [{ port := 22, status := some "open", time_ms := some (some 5), description := "SSH" },
           { port := 23, status := some "closed", time_ms := some none, description := "Telnet" }] "closed",
        timeout := statusCount
          [{ port := 22, status := some "open", time_ms := some (some 5), description := "SSH" },
           { port := 23, status := some "closed", time_ms := some none, description := "Telnet" }] "timeout",
        error := statusCount
          [{ port := 22, status := some "open", time_ms := some (some 5), description := "SSH" },
           { port := 23, status := some "closed", time_ms := some none, description := "Telnet" }] "error" } ∧
    (create_summary
      [{ port := 22, status := some "open", time_ms := some (some 5), description := "SSH" },
       { port := 23, status := some "closed", time_ms := some none, description := "Telnet" }]).«open» +
    (create_summary
      [{ port := 22, status := some "open", time_ms := some (some 5), description := "SSH" },
       { port := 23, status := some "closed", time_ms := some none, description := "Telnet" }]).closed +
    (create_summary
      [{ port := 22, status := some "open", time_ms := some (some 5), description := "SSH" },
       { port := 23, status := some "closed", time_ms := some none, description := "Telnet" }]).timeout +
    (create_summary
      [{ port := 22, status := some "open", time_ms := some (some 5), description := "SSH" },
       { port := 23, status := some "closed", time_ms := some none, description := "Telnet" }]).error =
    (([{ port := 22, status := some "open", time_ms := some (some 5), description := "SSH" },
       { port := 23, status := some "closed", time_ms := some none, description := "Telnet" }] :
       List ResultEntry).length : Int) :=
  create_summary_counts
    [{ port := 22, status := some "open", time_ms := some (some 5), description := "SSH" },
     { port := 23, status := some "closed", time_ms := some none, description := "Telnet" }]
    (by decide)

lemma sortByPort_sorted (l : List ResultEntry) : (sortByPort l).Sorted portLE :=
  List.sorted_insertionSort portLE l

lemma sortByPort_idem (l : List ResultEntry) : sortByPort (sortByPort l) = sortByPort l :=
  (sortByPort_sorted l).insertionSort_eq

/-- C8: aggregation is pure and idempotent — applying the program's
aggregation (the ascending port sort of `process_results` followed by
`create_summary`) to its own ScanResult output yields the identical
ScanResult and Summary.  In this embedding every function is pure by
construction, so `create_summary` cannot mutate its input; the
idempotence equation is the observable content. -/
theorem aggregate_idempotent (results : List ResultEntry) :
    aggregate (aggregate results).1 = aggregate results := by
  simp [aggregate, sortByPort_idem]

/-- C9: the claim fails on the code.  For the entry `process_results`
builds for a closed port — `"time_ms"` key present holding Python
`None` — `result.get('time_ms', 'N/A')` returns `None` (the `'N/A'`
default applies only when the key is missing), `None != 'N/A'` is
true, and the written line ends in a literal `" (Nonems)"` instead of
omitting the elapsed-time field.  The field is omitted only for a
missing key (second conjunct), which the scanner pipeline never
produces. -/
theorem result_line_nonems_bug :
    result_line (mkResultEntry (80, "closed", none)) =
      some "Port    80 (HTTP           ): closed   (Nonems)" ∧
    result_line { port := 80, status := some "closed", time_ms := none, description := "HTTP" } =
      some "Port    80 (HTTP           ): closed  " := by
  refine ⟨by decide, by decide⟩

/-- C5: with a progress callback supplied, one `scan_ports` call over
`ports` performs exactly `ports.length` callback invocations — one per
requested port — whatever each probe's outcome is, and even when an
invocation itself raises (the invocation has still happened; the task
then faults and is sentinel-substituted without a second invocation). -/
theorem progress_once_per_port (net : Net) (ip : String) (ports : List Int)
    (timeout : ℚ) (raises : Nat → Bool) :
    progressInvocations net ip ports timeout true raises = ports.length := by
  unfold progressInvocations gatherItems
  rw [List.map_map]
  rw [List.map_congr_left (g := fun _ => 1) (fun x _ => by
    by_cases hr : raises x.1 <;> simp [scan_with_semaphore, hr])]
  simp

/-- C3: if any per-port task's gathered result is not an outcome tuple,
`scan_ports` substitutes the synthetic sentinel `(0, "error", None)` at
that task's position, and the returned outcome list still covers all
launched tasks — one entry per requested port — rather than aborting
the whole scan. -/
theorem scan_ports_sentinel_substitution (net : Net) (ip : String) (ports : List Int)
    (concurrency : Nat) (timeout : ℚ) (hasCallback : Bool) (raises : Nat → Bool) :
    (scan_ports net ip ports concurrency timeout hasCallback raises).length = ports.length ∧
    ∀ i : Nat,
      ((gatherItems net ip timeout hasCallback raises ports).map Prod.fst)[i]? = some .exc →
      (scan_ports net ip ports concurrency timeout hasCallback raises)[i]? =
        some (0, "error", none) := by
  constructor
  · simp [scan_ports, substitute_faults, gatherItems]
  · intro i hi
    simp only [scan_ports, substitute_faults]
    rw [List.getElem?_map, hi]
    rfl

/-- C3 witness: a one-port scan whose single task faults (its callback
invocation raises): the gathered item is an exception and the returned
list is the sentinel singleton. -/
theorem scan_ports_sentinel_substitution_witness :
    (scan_ports (fun _ _ _ => .exn .timeoutError) "host" [80] 1 1 true (fun _ => true)).length
      = 1 ∧
    (scan_ports (fun _ _ _ => .exn .timeoutError) "host" [80] 1 1 true (fun _ => true))[0]? =
      some (0, "error", none) := by
  have h := scan_ports_sentinel_substitution (fun _ _ _ => ConnectOutcome.exn .timeoutError)
    "host" [80] 1 1 true (fun _ => true)
  exact ⟨h.1, h.2 0 (by decide)⟩

/-- C10: the raw outcome list of `scan_ports` is positionally aligned
with the requested port list: the i-th entry is either the classified
`scan_port` outcome for `ports[i]` (which carries that port number, by
`scan_port_fst`) or the `(0, "error", None)` sentinel
substituted for that position's faulted task. -/
theorem scan_ports_positional (net : Net) (ip : String) (ports : List Int)
    (concurrency : Nat) (timeout : ℚ) (hasCallback : Bool) (raises : Nat → Bool)
    (i : Nat) (h : i < ports.length) :
    (scan_ports net ip ports concurrency timeout hasCallback raises)[i]? =
      some (scan_port net ip (ports.get ⟨i, h⟩) timeout) ∨
    (scan_ports net ip ports concurrency timeout hasCallback raises)[i]? =
      some (0, "error", none) := by
  have henum : ports.enum[i]? = some (i, ports.get ⟨i, h⟩) := by
    simp [List.getElem?_enum, List.getElem?_eq_getElem h]
  by_cases hc : hasCallback
  · by_cases hr : raises i
    · right
      simp [scan_ports, substitute_faults, gatherItems, List.getElem?_map, henum,
        scan_with_semaphore, hc, hr]
    · left
      simp [scan_ports, substitute_faults, gatherItems, List.getElem?_map, henum,
        scan_with_semaphore, hc, hr]
  · left
    simp [scan_ports, substitute_faults, gatherItems, List.getElem?_map, henum,
      scan_with_semaphore, hc]

/-- C10 witness: position 1 of a concrete two-port fault-free scan
holds the classified outcome of port 22. -/
theorem scan_ports_positional_witness :
    (scan_ports (fun _ _ _ => .exn .connectionRefused) "host" [80, 22] 1 1 false
        (fun _ => false))[1]? =
      some (scan_port (fun _ _ _ => .exn .connectionRefused) "host"
        (([80, 22] : List Int).get ⟨1, by decide⟩) 1) ∨
    (scan_ports (fun _ _ _ => .exn .connectionRefused) "host" [80, 22] 1 1 false
        (fun _ => false))[1]? =
      some (0, "error", none) :=
  scan_ports_positional (fun _ _ _ => ConnectOutcome.exn .connectionRefused) "host"
    [80, 22] 1 1 false (fun _ => false) 1 (by decide)

lemma scan_port_fst (net : Net) (ip : String) (port : Int) (timeout : ℚ) :
    (scan_port net ip port timeout).1 = port := by
  rcases h : net ip port timeout with e | pe
  · simp [scan_port, h]
  · rcases pe with _ | _ | n <;> simp [scan_port, h]

/-- Without framework-level faults every gathered item is its task's
tuple, so `scan_ports` is exactly the per-port map of `scan_port`. -/
lemma scan_ports_no_faults (net : Net) (ip : String) (ports : List Int)
    (concurrency : Nat) (timeout : ℚ) (hasCallback : Bool) (raises : Nat → Bool)
    (hnf : ∀ i, (hasCallback && raises i) = false) :
    scan_ports net ip ports concurrency timeout hasCallback raises =
      ports.map (fun p => scan_port net ip p timeout) := by
  unfold scan_ports substitute_faults gatherItems
  rw [List.map_map, List.map_map]
  conv_rhs => rw [← List.enum_map_snd ports, List.map_map]
  apply List.map_congr_left
  intro x _
  have hx := hnf x.1
  by_cases hcb : hasCallback
  · have hr : raises x.1 = false := by simpa [hcb] using hx
    simp [scan_with_semaphore, hcb, hr, Function.comp]
  · simp [scan_with_semaphore, hcb, Function.comp]

/-- C2 (amended): for every valid scan request — non-empty
duplicate-free port list, positive concurrency and timeout — the
aggregated ScanResult always contains exactly one entry per launched
task (`|ScanResult| = |ports|`) and is sorted ascending by port after
aggregation; and provided no probe task faults at the framework level
(the progress callback, the only user code running inside a task,
never raises), every requested port appears exactly once with no
duplicates and no omissions. -/
theorem scan_result_one_per_port (net : Net) (ip : String) (ports : List Int)
    (concurrency : Nat) (timeout : ℚ) (hasCallback : Bool) (raises : Nat → Bool)
    (hne : ports ≠ []) (hnd : ports.Nodup) (hc : 0 < concurrency) (ht : 0 < timeout) :
    (process_results (scan_ports net ip ports concurrency timeout hasCallback raises)).length
      = ports.length ∧
    (process_results (scan_ports net ip ports concurrency timeout hasCallback
      raises)).Sorted portLE ∧
    ((∀ i, (hasCallback && raises i) = false) →
      ∀ p ∈ ports,
        (process_results (scan_ports net ip ports concurrency timeout hasCallback
          raises)).countP (fun e => e.port == p) = 1) := by
  refine ⟨?_, ?_, ?_⟩
  · simp [process_results, sortByPort, List.length_insertionSort, scan_ports,
      substitute_faults, gatherItems]
  · exact List.sorted_insertionSort portLE _
  · intro hnf p hp
    rw [scan_ports_no_faults net ip ports concurrency timeout hasCallback raises hnf]
    simp only [process_results, sortByPort]
    rw [(List.perm_insertionSort portLE _).countP_eq]
    rw [List.map_map, List.countP_map]
    rw [List.countP_congr (q := fun q => q == p) (fun q _ => by
      simp [Function.comp, mkResultEntry, scan_port_fst])]
    rw [← List.count_eq_countP]
    exact List.count_eq_one_of_mem hnd hp

/-- C2 counterexample: a valid request — ports `[80]`, concurrency 1,
timeout 1 — whose single probe task faults (its progress-callback
invocation raises): the task is sentinel-substituted, so the
aggregated ScanResult contains no entry carrying requested port 80;
the requested port does not appear exactly once, refuting the claim as
universally stated. -/
theorem scan_result_one_per_port_counterexample :
    (([80] : List Int) ≠ [] ∧ ([80] : List Int).Nodup ∧ 0 < 1 ∧ (0 : ℚ) < 1) ∧
    (process_results (scan_ports (fun _ _ _ => .exn .connectionRefused) "host" [80] 1 1 true
      (fun _ => true))).countP (fun e => e.port == 80) = 0 := by
  refine ⟨⟨by decide, by decide, by decide, by norm_num⟩, by decide⟩

/-- C2 witness: the amended theorem applied to a concrete fault-free
two-port scan. -/
theorem scan_result_one_per_port_witness :
    (process_results (scan_ports (fun _ _ _ => .exn .connectionRefused) "host" [443, 80] 2 1
      false (fun _ => false))).length = 2 ∧
    (process_results (scan_ports (fun _ _ _ => .exn .connectionRefused) "host" [443, 80] 2 1
      false (fun _ => false))).countP (fun e => e.port == 443) = 1 := by
  have h := scan_result_one_per_port (fun _ _ _ => ConnectOutcome.exn .connectionRefused)
    "host" [443, 80] 2 1 false (fun _ => false)
    (by decide) (by decide) (by decide) (by norm_num)
  exact ⟨h.1, h.2.2 (fun i => by simp) 443 (by decide)⟩

/-- Phase of one `scan_with_semaphore` task with respect to the
concurrency gate: not yet holding a slot, inside the `async with`
block (its probe in flight), or finished (slot released — `async with`
releases on every exit path, normal or exceptional). -/
inductive TaskPhase where
  | pending
  | inflight
  | finished
  deriving DecidableEq, Repr

/-- Scheduler state: the semaphore's counter together with every
task's phase. -/
structure SemState where
  counter : Nat
  phases : List TaskPhase
  deriving DecidableEq, Repr

/-- The state after `scan_ports` has created
`asyncio.Semaphore(concurrency)` (scanner.py line 64) and launched one
task per port (lines 74-77), none yet holding a slot. -/
def initState (c n : Nat) : SemState :=
  { counter := c, phases := List.replicate n .pending }

/-- Number of probes currently in flight. -/
def inflightCount (s : SemState) : Nat :=
  s.phases.countP (fun p => p == .inflight)

/-- One scheduler transition (scanner.py lines 66-71): a pending task
whose `async with semaphore` acquires a free slot — possible only
while the counter is positive — puts its probe in flight and
decrements the counter; or an in-flight task's `async with` block
exits, releasing the slot and incrementing the counter. -/
inductive SemStep : SemState → SemState → Prop where
  | acquire (s : SemState) (i : Nat) (hi : i < s.phases.length)
      (hp : s.phases.get ⟨i, hi⟩ = .pending) (hc : 0 < s.counter) :
      SemStep s { counter := s.counter - 1, phases := s.phases.set i .inflight }
  | release (s : SemState) (i : Nat) (hi : i < s.phases.length)
      (hp : s.phases.get ⟨i, hi⟩ = .inflight) :
      SemStep s { counter := s.counter + 1, phases := s.phases.set i .finished }

/-- All scheduler states a scan with concurrency `c` over `n` ports
can reach. -/
def SemReachable (c n : Nat) (s : SemState) : Prop :=
  Relation.ReflTransGen SemStep (initState c n) s

lemma countP_set_eq (p : TaskPhase → Bool) (l : List TaskPhase) (i : Nat)
    (hi : i < l.length) (a : TaskPhase) :
    (l.set i a).countP p + (if p (l.get ⟨i, hi⟩) then 1 else 0) =
      l.countP p + (if p a then 1 else 0) := by
  induction l generalizing i with
  | nil => simp at hi
  | cons b bs ih =>
    cases i with
    | zero =>
      simp only [List.set_cons_zero, List.countP_cons, List.get]
      omega
    | succ j =>
      have hj : j < bs.length := by simpa using hi
      have := ih j hj
      simp only [List.set_cons_succ, List.countP_cons, List.get]
      omega

/-- The semaphore invariant: the counter plus the number of in-flight
probes is constant, equal to the configured concurrency. -/
lemma sem_counter_invariant {c n : Nat} {s : SemState} (h : SemReachable c n s) :
    s.counter + inflightCount s = c := by
  induction h with
  | refl => simp [initState, inflightCount, List.countP_replicate]
  | @tail t sfin hab hstep ih =>
    cases hstep with
    | acquire i hi hp hc =>
      have hcnt := countP_set_eq (fun q => q == TaskPhase.inflight) t.phases i hi .inflight
      rw [hp] at hcnt
      simp only [inflightCount] at *
      simp at hcnt
      omega
    | release i hi hp =>
      have hcnt := countP_set_eq (fun q => q == TaskPhase.inflight) t.phases i hi .finished
      rw [hp] at hcnt
      simp only [inflightCount] at *
      simp at hcnt
      omega

/-- C6: in every scheduler state reachable during a `scan_ports` run
with concurrency limit `c` — any number `n` of requested ports, any
interleaving of slot acquisitions and releases — at most `c` probe
invocations are in flight simultaneously. -/
theorem inflight_at_most_concurrency (c n : Nat) (s : SemState)
    (h : SemReachable c n s) : inflightCount s ≤ c := by
  have := sem_counter_invariant h
  omega

/-- C6 witness: the initial state of a two-port scan with concurrency
1 is reachable and satisfies the bound. -/
theorem inflight_at_most_concurrency_witness : inflightCount (initState 1 2) ≤ 1 :=
  inflight_at_most_concurrency 1 2 (initState 1 2) Relation.ReflTransGen.refl

end PortScanX
